import Mathlib

/-!
Verification development for the DexScan repository: a Next.js dashboard and
three API routes (`/api/analyze`, `/api/trade/start`, `/api/trade/stop`) that
front a trading decision engine.  The web layer is embedded from the TypeScript
sources; the decision engine itself (`main.py`, `lib/dexanalyzer`) is not part
of the available sources and is modelled from the specification where a claim
needs it.
-/

namespace DexScan

/-! ### Data model

Embedded from the `TokenAnalysis` interface of the dashboard component
(src/unnamed/part_001, lines 13-30). -/

/-- Shape of the optional `rugcheck_analysis` field of a `TokenAnalysis`. -/
structure RugcheckAnalysis where
  is_safe : Bool
  status : String
  warnings : List String
deriving Repr, DecidableEq

/-- Shape of the optional `volume_analysis` field of a `TokenAnalysis`. -/
structure VolumeAnalysis where
  is_legitimate : Bool
  flags : List String
  real_volume_ratio : ℚ
deriving Repr, DecidableEq

/-- The analysis record served by `GET /api/analyze` and consumed by the
dashboard.  The two analysis sub-records are optional fields. -/
structure TokenAnalysis where
  token_name : String
  current_price : ℚ
  price_change_24h : ℚ
  volume_24h : ℚ
  liquidity_usd : ℚ
  event_type : String
  rugcheck_analysis : Option RugcheckAnalysis
  volume_analysis : Option VolumeAnalysis
deriving Repr, DecidableEq

/-! ### HTTP route embedding

A route handler returns either `NextResponse.json(payload)` (HTTP 200) or
`NextResponse.json(\x7berror\x7d, \x7bstatus\x7d)`.  An awaited call inside the
handler's `try` block either returns a value or throws. -/

/-- Result of a route handler: an error response with its HTTP status code and
message, or a 200 response with a JSON payload. -/
inductive RouteResult (α : Type) where
  | error (status : Nat) (message : String)
  | ok (payload : α)
deriving Repr, DecidableEq

/-- Outcome of an awaited call inside a `try` block: it throws, or it returns. -/
inductive CallResult (α : Type) where
  | thrown
  | value (a : α)
deriving Repr, DecidableEq

/-- JavaScript falsiness of an optional string: `undefined`, `null` and the
empty string are falsy; this is the `if (!pair)` test of the routes. -/
def falsyStr : Option String → Bool
  | none => true
  | some s => s.isEmpty

/-! ### `GET /api/analyze` (src/web/app/api/analyze/route.ts)

The route reads the `pair` query parameter, rejects a falsy one with 400, asks
`DexAnalyzer.get_pair_data` for pair data (404 when the result is nullish or
its `pairs` list is empty), then returns `analyze_price_movement`'s record; any
exception in the `try` block yields 500.  `DexAnalyzer` lives in
`lib/dexanalyzer`, outside the available sources, so its two calls appear here
as inputs of the route function. -/

/-- Modelled from the spec: a Pair snapshot (section 3) — identifier, token
name, reported price, 24h change, 24h volume, liquidity and the event type the
analyzer attaches.  `lib/dexanalyzer` is missing from the sources. -/
structure Pair where
  address : String
  token_name : String
  price : ℚ
  price_change_24h : ℚ
  volume_24h : ℚ
  liquidity_usd : ℚ
  event_type : String
deriving Repr, DecidableEq

/-- The pair-data envelope returned by `get_pair_data`; the route only
inspects its `pairs` list. -/
structure PairData where
  pairs : List Pair
deriving Repr, DecidableEq

/-- The `GET` handler of src/web/app/api/analyze/route.ts.  `pair` is the query
parameter, `get_pair_data` and `analyze_price_movement` the outcomes of the two
analyzer calls. -/
def analyzeGET (pair : Option String)
    (get_pair_data : CallResult (Option PairData))
    (analyze_price_movement : CallResult TokenAnalysis) :
    RouteResult TokenAnalysis :=
  if falsyStr pair then
    .error 400 "Pair address is required"
  else
    match get_pair_data with
    | .thrown => .error 500 "Failed to analyze pair"
    | .value pairData =>
      match pairData with
      | none => .error 404 "Pair not found"
      | some d =>
        if d.pairs.isEmpty then
          .error 404 "Pair not found"
        else
          match analyze_price_movement with
          | .thrown => .error 500 "Failed to analyze pair"
          | .value analysis => .ok analysis

/-! ### `POST /api/trade/start` and `POST /api/trade/stop`
(src/web/app/api/trade/start/route.ts, src/web/app/api/trade/stop/route.ts)

Each handler parses the JSON body, rejects a falsy `pairAddress` with 400,
spawns `python main.py --trade <pairAddress> --action <start|stop>`, attaches a
stderr handler that only logs, and immediately returns a fixed success payload;
an exception in the `try` block yields 500. -/

/-- The `--action` argument passed to the spawned backend process. -/
inductive SpawnAction where
  | start
  | stop
deriving Repr, DecidableEq

/-- A spawn of the python backend: which pair and which action were passed on
the command line. -/
structure SpawnCall where
  pairAddress : String
  action : SpawnAction
deriving Repr, DecidableEq

/-- What the spawned backend process eventually does, delivered asynchronously
after the route has answered: its exit code and the chunks it writes to
stderr. -/
structure BackendOutcome where
  exitCode : Int
  stderrChunks : List String
deriving Repr, DecidableEq

/-- Everything observable about one trade-route invocation: the HTTP response,
the backend spawn (if any), and the lines logged to the server console. -/
structure TradeRouteOutput where
  response : RouteResult String
  spawned : Option SpawnCall
  logs : List String
deriving Repr, DecidableEq

/-- The `POST` handler of src/web/app/api/trade/start/route.ts.  `body` is the
outcome of `request.json()` projected to its `pairAddress` field; `backend` is
the eventual behaviour of the spawned process (its stderr is logged by the
`on data` handler and nothing else depends on it). -/
def tradeStart (body : CallResult (Option String)) (backend : BackendOutcome) :
    TradeRouteOutput :=
  match body with
  | .thrown =>
    ⟨.error 500 "Failed to start trading", none, ["Error starting trading"]⟩
  | .value pairAddress =>
    if falsyStr pairAddress then
      ⟨.error 400 "Pair address is required", none, []⟩
    else
      ⟨.ok "Trading started",
       some ⟨pairAddress.getD "", .start⟩,
       backend.stderrChunks.map (fun d => "Python Error: " ++ d)⟩

/-- The `POST` handler of src/web/app/api/trade/stop/route.ts; identical to
`tradeStart` up to the action, the status string and the error strings. -/
def tradeStop (body : CallResult (Option String)) (backend : BackendOutcome) :
    TradeRouteOutput :=
  match body with
  | .thrown =>
    ⟨.error 500 "Failed to stop trading", none, ["Error stopping trading"]⟩
  | .value pairAddress =>
    if falsyStr pairAddress then
      ⟨.error 400 "Pair address is required", none, []⟩
    else
      ⟨.ok "Trading stopped",
       some ⟨pairAddress.getD "", .stop⟩,
       backend.stderrChunks.map (fun d => "Python Error: " ++ d)⟩

/-! ### Dashboard trading controls (src/unnamed/part_001)

The Start Trading button is rendered with
`disabled=\x7bisTrading || !analysis?.rugcheck_analysis?.is_safe\x7d`; clicking
it POSTs the current pair address to `/api/trade/start`.  The Stop Trading
button is rendered with `disabled=\x7b!isTrading\x7d`. -/

/-- The JavaScript truthiness of `analysis?.rugcheck_analysis?.is_safe`:
`false` when the analysis is missing, its `rugcheck_analysis` field is absent,
or `is_safe` is false. -/
def safeFlag : Option TokenAnalysis → Bool
  | none => false
  | some a =>
    match a.rugcheck_analysis with
    | none => false
    | some r => r.is_safe

/-- The `disabled` condition of the dashboard's Start Trading button. -/
def startTradingDisabled (isTrading : Bool) (analysis : Option TokenAnalysis) :
    Bool :=
  isTrading || !(safeFlag analysis)

/-- The `disabled` condition of the dashboard's Stop Trading button. -/
def stopTradingDisabled (isTrading : Bool) : Bool :=
  !isTrading

/-- The dashboard's start-trading path: when the button is enabled, clicking it
sends the pair address to `POST /api/trade/start`; when disabled, nothing
happens. -/
def dashboardStart (isTrading : Bool) (analysis : Option TokenAnalysis)
    (pairAddress : String) (backend : BackendOutcome) :
    Option TradeRouteOutput :=
  if startTradingDisabled isTrading analysis then none
  else some (tradeStart (.value (some pairAddress)) backend)

/-! ### Decision engine, modelled from the spec

`main.py` and the `lib/dexanalyzer` module are not among the available sources;
the definitions below are modelled from the specification (sections 3, 4.2,
4.3, 6) and each doc comment says which missing piece it stands for. -/

/-- Modelled from the spec: the status enum of a `VerificationResult`
(section 3), produced by the missing Verifier. -/
inductive VerifyStatus where
  | pass
  | warn
  | fail
deriving Repr, DecidableEq

/-- Modelled from the spec: `VerificationResult` (section 3), produced by the
missing Verifier component. -/
structure VerificationResult where
  pair_id : String
  is_safe : Bool
  status : VerifyStatus
  warnings : List String
deriving Repr, DecidableEq

/-- Modelled from the spec: `VolumeVerdict` (section 3), produced by the
missing VolumeAnalyzer component. -/
structure VolumeVerdict where
  pair_id : String
  is_legitimate : Bool
  real_volume_ratio : ℚ
  flags : List String
deriving Repr, DecidableEq

/-- Modelled from the spec: the provider-error taxonomy of section 7 for the
missing Verifier / VolumeAnalyzer calls. -/
inductive ProviderError where
  | timeout
  | rateLimit
  | malformed
deriving Repr, DecidableEq

/-- Modelled from the spec: a provider call with at most one retry
(section 4.2) — the first attempt's value is used if it succeeded, otherwise
the single retry's outcome stands. -/
def callWithRetry {α : Type} (first retryAttempt : Except ProviderError α) :
    Except ProviderError α :=
  match first with
  | .ok a => .ok a
  | .error _ => retryAttempt

/-- Modelled from the spec: fail-closed interpretation of the Verifier call
(section 4.2) — on provider error or timeout the pair is treated as FAIL /
unsafe, never as safe. -/
def verifierResult (pair_id : String)
    (r : Except ProviderError VerificationResult) : VerificationResult :=
  match r with
  | .ok v => v
  | .error _ => ⟨pair_id, false, .fail, ["provider error or timeout"]⟩

/-- Modelled from the spec: fail-closed interpretation of the VolumeAnalyzer
call (section 4.2) — on provider error or timeout the volume is treated as
not legitimate. -/
def volumeResult (pair_id : String)
    (r : Except ProviderError VolumeVerdict) : VolumeVerdict :=
  match r with
  | .ok v => v
  | .error _ => ⟨pair_id, false, 0, ["provider error or timeout"]⟩

/-- Modelled from the spec: `TradingConfig` (section 3) — stop-loss %,
take-profit %, trade amount, slippage tolerance and minimum liquidity/volume
thresholds, as also listed in config.json of the README. -/
structure TradingConfig where
  stop_loss : ℚ
  take_profit : ℚ
  trade_amount : ℚ
  slippage : ℚ
  min_liquidity : ℚ
  min_volume : ℚ
deriving Repr, DecidableEq

/-- Modelled from the spec: a `Position` (section 3) — thresholds are an
immutable snapshot of the config taken at decision time. -/
structure Position where
  pair_id : String
  entry_price : ℚ
  stop_loss : ℚ
  take_profit : ℚ
  trade_amount : ℚ
  last_price : ℚ
deriving Repr, DecidableEq

/-- Modelled from the spec: the per-pair state of the PositionManager state
machine (section 4.3).  `IDLE` holds no Position; `OPEN` and `CLOSING` carry
the live Position; `CLOSED` is terminal with its exit reason. -/
inductive PairStatus where
  | idle
  | evaluating
  | openPos (p : Position)
  | closing (p : Position)
  | closed (reason : Option String)
deriving Repr, DecidableEq

/-- Does this state hold a live (open or closing) Position? -/
def PairStatus.hasPosition : PairStatus → Bool
  | .openPos _ => true
  | .closing _ => true
  | _ => false

/-- Modelled from the spec: an order placed through the ExecutionBridge
(section 4.4). -/
inductive OrderEvent where
  | enter (pair_id : String) (amount : ℚ)
  | exitOrder (pair_id : String) (reason : String)
deriving Repr, DecidableEq

/-- Modelled from the spec: a Position opened at decision time snapshots the
current config's thresholds (section 3, `TradingConfig`). -/
def mkPosition (cfg : TradingConfig) (pair_id : String) (price : ℚ) :
    Position :=
  ⟨pair_id, price, cfg.stop_loss, cfg.take_profit, cfg.trade_amount, price⟩

/-- Modelled from the spec: the outcome of `PositionManager.evaluate`
(section 4.3, `EVALUATING` transition). -/
inductive EntryDecision where
  | openPosition (p : Position)
  | reject (reason : String)
deriving Repr, DecidableEq

/-- Modelled from the spec: the `EVALUATING → OPEN` guard (section 4.3) — a
position opens iff `is_safe` and `is_legitimate` hold and liquidity/volume meet
the configured thresholds; otherwise the pair is rejected with reason
"verification failed". -/
def evaluate (cfg : TradingConfig) (pair : Pair) (v : VerificationResult)
    (vol : VolumeVerdict) : EntryDecision :=
  if v.is_safe && vol.is_legitimate
      && decide (cfg.min_liquidity ≤ pair.liquidity_usd)
      && decide (cfg.min_volume ≤ pair.volume_24h) then
    .openPosition (mkPosition cfg pair.address pair.price)
  else
    .reject "verification failed"

/-- Modelled from the spec: the exit reasons of the `OPEN → CLOSING`
transition (section 4.3). -/
inductive ExitReason where
  | stopLoss
  | takeProfit
  | manual
deriving Repr, DecidableEq

/-- The notification string of an `ExitReason`. -/
def reasonStr : ExitReason → String
  | .stopLoss => "stop-loss"
  | .takeProfit => "take-profit"
  | .manual => "manual"

/-- Modelled from the spec: the exit-condition check run on every price poll
(section 4.3) — conditions are evaluated in priority order stop-loss,
take-profit, manual; the first true condition wins. -/
def checkExit (p : Position) (price : ℚ) (manualStop : Bool) :
    Option ExitReason :=
  if price ≤ p.entry_price * (1 - p.stop_loss / 100) then some .stopLoss
  else if p.entry_price * (1 + p.take_profit / 100) ≤ price then
    some .takeProfit
  else if manualStop then some .manual
  else none

/-- Modelled from the spec: one monitoring step of an open Position
(section 4.3) — on the first true exit condition the state moves to `CLOSING`
and an exit order is placed with the winning reason. -/
def monitorStep (s : PairStatus) (price : ℚ) (manualStop : Bool) :
    PairStatus × List OrderEvent :=
  match s with
  | .openPos p =>
    match checkExit p price manualStop with
    | some r =>
      (.closing { p with last_price := price },
       [.exitOrder p.pair_id (reasonStr r)])
    | none => (.openPos { p with last_price := price }, [])
  | other => (other, [])

/-- Modelled from the spec: the manual start-trading request handler of the
PositionManager (section 4.3) — accepted from `IDLE`/`EVALUATING`, a no-op
returning success (not an error) in every other state; the returned Bool is
the success flag and the event list the orders initiated. -/
def handleStart (s : PairStatus) : PairStatus × List OrderEvent × Bool :=
  match s with
  | .idle => (.evaluating, [], true)
  | other => (other, [], true)

/-- Modelled from the spec: the manual stop-trading request handler of the
PositionManager (section 4.3) — valid from `OPEN` (moves to `CLOSING` with an
exit order, reason "manual") and idempotent from `CLOSING`; a stop in any
state holding no Position is a no-op returning success. -/
def handleStop (s : PairStatus) : PairStatus × List OrderEvent × Bool :=
  match s with
  | .openPos p => (.closing p, [.exitOrder p.pair_id (reasonStr .manual)], true)
  | other => (other, [], true)

/-- Modelled from the spec: the engine state the settings operation acts on —
the current `TradingConfig` and the live per-pair statuses. -/
structure EngineState where
  config : TradingConfig
  positions : List (String × PairStatus)
deriving Repr, DecidableEq

/-- Modelled from the spec: `POST settings(TradingConfig)` (section 6) —
replaces the config used by future decisions and answers with a status
response; open Positions keep their snapshotted thresholds. -/
def updateSettings (st : EngineState) (c : TradingConfig) :
    EngineState × RouteResult String :=
  ({ st with config := c }, .ok "Settings updated")

/-- Modelled from the spec: `DexAnalyzer.analyze_price_movement` (missing
`lib/dexanalyzer`) — builds the `TokenAnalysis` record of section 6 from the
first pair of the pair data and the two optional analysis sub-records. -/
def analyze_price_movement (d : PairData) (rc : Option RugcheckAnalysis)
    (va : Option VolumeAnalysis) : Option TokenAnalysis :=
  match d.pairs with
  | [] => none
  | p :: _ =>
    some ⟨p.token_name, p.price, p.price_change_24h, p.volume_24h,
          p.liquidity_usd, p.event_type, rc, va⟩

/-! ### Concrete fixtures used by counterexamples and witnesses -/

/-- An analysis whose rugcheck passes but whose volume analysis flags the
volume as illegitimate wash-trading. -/
def mixedAnalysis : TokenAnalysis :=
  ⟨"WASHCOIN", 1/2, 5, 100000, 50000, "new_pair",
   some ⟨true, "Good", []⟩,
   some ⟨false, ["wash-trading"], 1/10⟩⟩

/-- A backend run that exits cleanly and writes nothing to stderr. -/
def quietBackend : BackendOutcome := ⟨0, []⟩

/-- A backend run that crashes with a traceback on stderr. -/
def failingBackend : BackendOutcome := ⟨1, ["Traceback"]⟩

/-- A concrete pair snapshot. -/
def pair0 : Pair := ⟨"0xPAIR", "TOK", 2, 3, 10000, 20000, "new_pair"⟩

/-- A concrete trading configuration. -/
def cfg0 : TradingConfig := ⟨10, 20, 100, 1, 1000, 5000⟩

/-- A verification result that failed the safety check. -/
def vresUnsafe : VerificationResult := ⟨"0xPAIR", false, .fail, ["honeypot"]⟩

/-- A volume verdict that found the volume legitimate. -/
def vvolOk : VolumeVerdict := ⟨"0xPAIR", true, 9/10, []⟩

/-- A concrete open position. -/
def pos0 : Position := ⟨"0xPAIR", 100, 10, 20, 100, 100⟩

/-- A position with entry price 0, on which the stop-loss and take-profit
conditions hold simultaneously at price 0. -/
def tiePosition : Position := ⟨"0xPAIR", 0, 10, 20, 100, 0⟩

/-! ### Theorems -/

/-- C1, counterexample: for a concrete analysis whose `rugcheck_analysis` is
safe but whose `volume_analysis.is_legitimate` is false, the dashboard's Start
Trading button is enabled and clicking it makes `POST /api/trade/start` spawn
the backend with action start — the start path does initiate trading for a
pair with `is_legitimate = false`, contradicting the claim. -/
theorem start_path_ignores_volume_legitimacy :
    mixedAnalysis.volume_analysis.map VolumeAnalysis.is_legitimate = some false
    ∧ startTradingDisabled false (some mixedAnalysis) = false
    ∧ dashboardStart false (some mixedAnalysis) "0xPAIR" quietBackend
        = some ⟨.ok "Trading started", some ⟨"0xPAIR", .start⟩, []⟩ := by
  exact ⟨rfl, rfl, rfl⟩

/-- C1 (amended): the start path blocks only on the rugcheck safety flag —
whenever `rugcheck_analysis.is_safe` is false or absent, the dashboard's Start
Trading control is disabled; `volume_analysis.is_legitimate` is not consulted
on the start path, and no Position is opened for an unsafe or illegitimate
pair only because the engine's `EVALUATING → OPEN` guard rejects it with
reason "verification failed". -/
theorem start_path_guard (isTrading : Bool) (analysis : Option TokenAnalysis)
    (cfg : TradingConfig) (pair : Pair) (v : VerificationResult)
    (vol : VolumeVerdict)
    (hsafe : safeFlag analysis = false)
    (hguard : v.is_safe = false ∨ vol.is_legitimate = false) :
    startTradingDisabled isTrading analysis = true
    ∧ evaluate cfg pair v vol = .reject "verification failed" := by
  constructor
  · simp [startTradingDisabled, hsafe]
  · rcases hguard with h | h <;> simp [evaluate, h]

/-- Witness for `start_path_guard` at a missing analysis and an unsafe
verification result. -/
theorem start_path_guard_witness :
    startTradingDisabled false none = true
    ∧ evaluate cfg0 pair0 vresUnsafe vvolOk = .reject "verification failed" :=
  start_path_guard false none cfg0 pair0 vresUnsafe vvolOk rfl (Or.inl rfl)

/-- C2: a manual stop for a pair in a state holding no live Position is a
no-op of the modelled PositionManager — the state is unchanged, no order is
placed, the success flag is set — and `POST /api/trade/stop` answers with the
success payload, not an error. -/
theorem stop_without_position_noop (s : PairStatus) (b : BackendOutcome)
    (pid : String) (hs : s.hasPosition = false)
    (hp : falsyStr (some pid) = false) :
    handleStop s = (s, [], true)
    ∧ (tradeStop (.value (some pid)) b).response = .ok "Trading stopped" := by
  constructor
  · cases s <;> simp_all [handleStop, PairStatus.hasPosition]
  · simp [tradeStop, falsyStr] at hp ⊢
    simp [hp]

/-- Witness for `stop_without_position_noop` in the `IDLE` state. -/
theorem stop_without_position_noop_witness :
    handleStop .idle = (.idle, [], true)
    ∧ (tradeStop (.value (some "0xPAIR")) quietBackend).response
        = .ok "Trading stopped" :=
  stop_without_position_noop .idle quietBackend "0xPAIR" rfl rfl

/-- C3: a duplicate start request for a pair whose Position is already `OPEN`
leaves the modelled PositionManager state unchanged and initiates no order,
with the success flag set, and `POST /api/trade/start` answers with the
success payload, not an error. -/
theorem start_duplicate_idempotent (p : Position) (b : BackendOutcome)
    (pid : String) (hp : falsyStr (some pid) = false) :
    handleStart (.openPos p) = (.openPos p, [], true)
    ∧ (tradeStart (.value (some pid)) b).response = .ok "Trading started" := by
  refine ⟨rfl, ?_⟩
  simp [tradeStart, falsyStr] at hp ⊢
  simp [hp]

/-- Witness for `start_duplicate_idempotent` at a concrete open position. -/
theorem start_duplicate_idempotent_witness :
    handleStart (.openPos pos0) = (.openPos pos0, [], true)
    ∧ (tradeStart (.value (some "0xPAIR")) failingBackend).response
        = .ok "Trading started" :=
  start_duplicate_idempotent pos0 failingBackend "0xPAIR" rfl

/-- C4: for a pair id that resolves to a known pair (non-empty pairs list),
the modelled analyzer produces a `TokenAnalysis` record — token name, current
price, 24h change, 24h volume, liquidity, event type, plus the two optional
analysis sub-records — and `GET /api/analyze` returns exactly that record as
its 200 payload. -/
theorem analyze_known_pair_shape (pid : String) (p : Pair) (rest : List Pair)
    (rc : Option RugcheckAnalysis) (va : Option VolumeAnalysis)
    (hp : falsyStr (some pid) = false) :
    ∃ a : TokenAnalysis,
      analyze_price_movement ⟨p :: rest⟩ rc va = some a
      ∧ analyzeGET (some pid) (.value (some ⟨p :: rest⟩)) (.value a) = .ok a
      ∧ a.token_name = p.token_name ∧ a.current_price = p.price
      ∧ a.price_change_24h = p.price_change_24h
      ∧ a.volume_24h = p.volume_24h
      ∧ a.liquidity_usd = p.liquidity_usd ∧ a.event_type = p.event_type
      ∧ a.rugcheck_analysis = rc ∧ a.volume_analysis = va := by
  refine ⟨_, rfl, ?_, rfl, rfl, rfl, rfl, rfl, rfl, rfl, rfl⟩
  simp [analyzeGET, hp]

/-- Witness for `analyze_known_pair_shape` at a concrete pair. -/
theorem analyze_known_pair_shape_witness :
    ∃ a : TokenAnalysis,
      analyze_price_movement ⟨[pair0]⟩ none none = some a
      ∧ analyzeGET (some "0xPAIR") (.value (some ⟨[pair0]⟩)) (.value a) = .ok a
      ∧ a.token_name = pair0.token_name ∧ a.current_price = pair0.price
      ∧ a.price_change_24h = pair0.price_change_24h
      ∧ a.volume_24h = pair0.volume_24h
      ∧ a.liquidity_usd = pair0.liquidity_usd
      ∧ a.event_type = pair0.event_type
      ∧ a.rugcheck_analysis = none ∧ a.volume_analysis = none :=
  analyze_known_pair_shape "0xPAIR" pair0 [] none none rfl

/-- C5: the modelled settings operation answers with a status response,
installs the new config for future decisions (a position opened after the
update snapshots the new thresholds), and leaves every existing per-pair
status — in particular every open Position and its thresholds — untouched. -/
theorem settings_future_only (st : EngineState) (c : TradingConfig) :
    (updateSettings st c).2 = .ok "Settings updated"
    ∧ (updateSettings st c).1.config = c
    ∧ (updateSettings st c).1.positions = st.positions
    ∧ ∀ pid price,
        mkPosition (updateSettings st c).1.config pid price
          = ⟨pid, price, c.stop_loss, c.take_profit, c.trade_amount, price⟩ :=
  ⟨rfl, rfl, rfl, fun _ _ => rfl⟩

/-- C6: on a price sample where the stop-loss condition
(price ≤ entry × (1 − stopLoss/100)) and the take-profit condition
(price ≥ entry × (1 + takeProfit/100)) both hold, the exit check resolves to
stop-loss and the monitoring step moves the Position to `CLOSING` with an exit
order whose reason is "stop-loss", never "take-profit". -/
theorem stoploss_beats_takeprofit (p : Position) (price : ℚ) (m : Bool)
    (hsl : price ≤ p.entry_price * (1 - p.stop_loss / 100))
    (htp : p.entry_price * (1 + p.take_profit / 100) ≤ price) :
    checkExit p price m = some .stopLoss
    ∧ monitorStep (.openPos p) price m
        = (.closing { p with last_price := price },
           [.exitOrder p.pair_id "stop-loss"]) := by
  have h1 : checkExit p price m = some .stopLoss := by
    unfold checkExit
    rw [if_pos hsl]
  exact ⟨h1, by simp [monitorStep, h1, reasonStr]⟩

/-- Witness for `stoploss_beats_takeprofit`: at entry price 0 both conditions
hold at price 0, and stop-loss wins. -/
theorem stoploss_beats_takeprofit_witness :
    (0:ℚ) ≤ tiePosition.entry_price * (1 - tiePosition.stop_loss / 100)
    ∧ tiePosition.entry_price * (1 + tiePosition.take_profit / 100) ≤ 0
    ∧ checkExit tiePosition 0 false = some .stopLoss :=
  ⟨by norm_num [tiePosition], by norm_num [tiePosition],
   (stoploss_beats_takeprofit tiePosition 0 false (by norm_num [tiePosition])
     (by norm_num [tiePosition])).1⟩

/-- C7: when a verification call still fails after its single retry, the
fail-closed wrapper reports `is_safe = false` / `is_legitimate = false` with
FAIL status, and the entry decision rejects the pair with reason
"verification failed" — for the Verifier side even against a legitimate
volume verdict, and for the VolumeAnalyzer side even against a safe
verification result; a missing signal is never read as safe. -/
theorem missing_signal_fail_closed (cfg : TradingConfig) (pair : Pair)
    (v : VerificationResult) (vol : VolumeVerdict)
    (e1 e2 e3 e4 : ProviderError) :
    (verifierResult pair.address (callWithRetry (.error e1) (.error e2))).is_safe
        = false
    ∧ (verifierResult pair.address (callWithRetry (.error e1) (.error e2))).status
        = .fail
    ∧ evaluate cfg pair
        (verifierResult pair.address (callWithRetry (.error e1) (.error e2)))
        vol = .reject "verification failed"
    ∧ (volumeResult pair.address (callWithRetry (.error e3) (.error e4))).is_legitimate
        = false
    ∧ evaluate cfg pair v
        (volumeResult pair.address (callWithRetry (.error e3) (.error e4)))
        = .reject "verification failed" := by
  refine ⟨rfl, rfl, ?_, rfl, ?_⟩ <;>
    simp [evaluate, verifierResult, volumeResult, callWithRetry]

/-- C8: the analyze route is total over its error branches — a falsy `pair`
query parameter yields 400; a nullish pair-data result or an empty pairs list
yields 404; a throwing lookup or analyzer yields 500; and only otherwise does
the route answer 200 with the analyzer's record. -/
theorem analyze_route_error_totality (pair : Option String)
    (gpd : CallResult (Option PairData)) (apm : CallResult TokenAnalysis) :
    (falsyStr pair = true →
      analyzeGET pair gpd apm = .error 400 "Pair address is required")
    ∧ (falsyStr pair = false → gpd = .value none →
      analyzeGET pair gpd apm = .error 404 "Pair not found")
    ∧ (∀ d, falsyStr pair = false → gpd = .value (some d) → d.pairs = [] →
      analyzeGET pair gpd apm = .error 404 "Pair not found")
    ∧ (falsyStr pair = false → gpd = .thrown →
      analyzeGET pair gpd apm = .error 500 "Failed to analyze pair")
    ∧ (∀ d, falsyStr pair = false → gpd = .value (some d) → d.pairs ≠ [] →
      apm = .thrown →
      analyzeGET pair gpd apm = .error 500 "Failed to analyze pair")
    ∧ (∀ d a, falsyStr pair = false → gpd = .value (some d) → d.pairs ≠ [] →
      apm = .value a →
      analyzeGET pair gpd apm = .ok a) := by
  refine ⟨?_, ?_, ?_, ?_, ?_, ?_⟩
  · intro h
    simp [analyzeGET, h]
  · intro h hg
    subst hg
    simp [analyzeGET, h]
  · intro d h hg hd
    subst hg
    simp [analyzeGET, h, hd]
  · intro h hg
    subst hg
    simp [analyzeGET, h]
  · intro d h hg hd ha
    subst hg
    subst ha
    simp [analyzeGET, h, List.isEmpty_iff, hd]
  · intro d a h hg hd ha
    subst hg
    subst ha
    simp [analyzeGET, h, List.isEmpty_iff, hd]

/-- Witness for `analyze_route_error_totality`, one concrete input per
branch. -/
theorem analyze_route_error_totality_witness :
    analyzeGET none .thrown .thrown = .error 400 "Pair address is required"
    ∧ analyzeGET (some "0xPAIR") (.value none) .thrown
        = .error 404 "Pair not found"
    ∧ analyzeGET (some "0xPAIR") (.value (some ⟨[]⟩)) .thrown
        = .error 404 "Pair not found"
    ∧ analyzeGET (some "0xPAIR") .thrown .thrown
        = .error 500 "Failed to analyze pair"
    ∧ analyzeGET (some "0xPAIR") (.value (some ⟨[pair0]⟩)) .thrown
        = .error 500 "Failed to analyze pair"
    ∧ analyzeGET (some "0xPAIR") (.value (some ⟨[pair0]⟩))
        (.value mixedAnalysis) = .ok mixedAnalysis :=
  ⟨(analyze_route_error_totality none .thrown .thrown).1 rfl,
   (analyze_route_error_totality _ _ _).2.1 rfl rfl,
   (analyze_route_error_totality _ _ _).2.2.1 ⟨[]⟩ rfl rfl rfl,
   (analyze_route_error_totality _ _ _).2.2.2.1 rfl rfl,
   (analyze_route_error_totality _ _ _).2.2.2.2.1 ⟨[pair0]⟩ rfl rfl
     (by simp) rfl,
   (analyze_route_error_totality _ _ _).2.2.2.2.2 ⟨[pair0]⟩ mixedAnalysis rfl
     rfl (by simp) rfl⟩

/-- C9: a request body without a `pairAddress` makes both trade routes answer
400 with the "Pair address is required" error, spawn no backend process and
log nothing, whatever the backend would have done. -/
theorem trade_missing_address_400 (b : BackendOutcome) :
    tradeStart (.value none) b
      = ⟨.error 400 "Pair address is required", none, []⟩
    ∧ tradeStop (.value none) b
      = ⟨.error 400 "Pair address is required", none, []⟩ :=
  ⟨rfl, rfl⟩

/-- C10: with a pair address present, both trade routes answer the fixed
success payload regardless of the backend process's outcome — the response of
two runs with different backend behaviour is identical, and the backend's
stderr only shows up in the logged lines. -/
theorem trade_response_independent_of_backend (pid : String)
    (b1 b2 : BackendOutcome) (hp : falsyStr (some pid) = false) :
    (tradeStart (.value (some pid)) b1).response = .ok "Trading started"
    ∧ (tradeStop (.value (some pid)) b1).response = .ok "Trading stopped"
    ∧ (tradeStart (.value (some pid)) b1).response
        = (tradeStart (.value (some pid)) b2).response
    ∧ (tradeStop (.value (some pid)) b1).response
        = (tradeStop (.value (some pid)) b2).response
    ∧ (tradeStart (.value (some pid)) b1).logs
        = b1.stderrChunks.map (fun d => "Python Error: " ++ d) := by
  simp [tradeStart, tradeStop, falsyStr] at hp ⊢
  simp [hp]

/-- Witness for `trade_response_independent_of_backend` at a concrete pair
address, a clean backend run and a crashing one. -/
theorem trade_response_independent_of_backend_witness :
    (tradeStart (.value (some "0xPAIR")) quietBackend).response
        = .ok "Trading started"
    ∧ (tradeStop (.value (some "0xPAIR")) quietBackend).response
        = .ok "Trading stopped"
    ∧ (tradeStart (.value (some "0xPAIR")) quietBackend).response
        = (tradeStart (.value (some "0xPAIR")) failingBackend).response
    ∧ (tradeStop (.value (some "0xPAIR")) quietBackend).response
        = (tradeStop (.value (some "0xPAIR")) failingBackend).response
    ∧ (tradeStart (.value (some "0xPAIR")) quietBackend).logs
        = quietBackend.stderrChunks.map (fun d => "Python Error: " ++ d) :=
  trade_response_independent_of_backend "0xPAIR" quietBackend failingBackend
    rfl

end DexScan
